import Mathlib

/-!
Verification of the script-engine wrapper (Engine/Script/ScriptEngine.cpp).

The file shallowly embeds the `ScriptEngine` class: its state is a record
(immediate context, fixed pool of per-nesting-level contexts, log mode,
retained log buffer), and each member function becomes a Lean function on
that record.  Calls into the wrapped third-party AngelScript runtime
(module retrieval, compilation, prepare, execute) are modelled by an
oracle record carrying the return codes those calls produce, with the
documented numeric values of the AngelScript API (`angelscript.h`):
`asEContextState` (asEXECUTION_FINISHED = 0, asEXECUTION_SUSPENDED = 1,
asEXECUTION_ABORTED = 2, asEXECUTION_EXCEPTION = 3) and the negative
`asERetCodes` error codes (e.g. asCONTEXT_NOT_PREPARED = -4), and the
garbage-collection flags `asEGCFlags` (asGC_FULL_CYCLE = 1,
asGC_ONE_STEP = 2, asGC_DESTROY_GARBAGE = 4, asGC_DETECT_GARBAGE = 8).

Two identifiers used by the source live in repository headers that are
not part of this excerpt: the compile-time constant
`MAX_SCRIPT_NESTING_LEVEL` (ScriptEngine.h) and the function
`getHighestScriptNestingLevel()` (ScriptFile).  Both are modelled from
the spec as parameters: an arbitrary pool size fixed at construction,
and an arbitrary "highest nesting level reached" input to
`garbageCollect`.
-/

namespace Urho3D

/-- Severity of a diagnostic message (asEMsgType: error, warning,
information). -/
inductive MsgType
  | error
  | warning
  | info
deriving DecidableEq, Repr

/-- The logging mode enumeration (LOGMODE_IMMEDIATE / LOGMODE_RETAINED). -/
inductive ScriptLogMode
  | immediate
  | retained
deriving DecidableEq, Repr

/-- A diagnostic message as delivered by the engine message callback
(asSMessageInfo): source section, row, column, severity, text. -/
structure MessageInfo where
  sectionName : String
  row : Int
  col : Int
  msgType : MsgType
  message : String
deriving DecidableEq, Repr

/-- The log sinks used in immediate mode (LOGERROR / LOGWARNING / LOGINFO). -/
inductive LogSink
  | errorSink
  | warningSink
  | infoSink
deriving DecidableEq, Repr

/-- An AngelScript execution context (asIScriptContext), abstracted to its
preparation state: `prepared` is true after a successful `Prepare` and
false after `Unprepare` (and initially). -/
structure ScriptContext where
  prepared : Bool
deriving DecidableEq, Repr

/-- The state of a `ScriptEngine` object: the immediate-execution context,
the fixed pool of per-nesting-level contexts (`mScriptFileContexts`), the
log mode (`mLogMode`) and the retained log buffer (`mLogMessages`). -/
structure ScriptEngineState where
  immediateContext : ScriptContext
  scriptFileContexts : List ScriptContext
  logMode : ScriptLogMode
  logMessages : String
deriving DecidableEq, Repr

/-- `ScriptEngine::ScriptEngine`.  `engineCreated` models whether
`asCreateScriptEngine` returned a non-null engine; when it does not, the
constructor raises `EXCEPTION("Could not create AngelScript engine")`,
modelled as `Except.error`.  Otherwise the constructor creates the
immediate context and `MAX_SCRIPT_NESTING_LEVEL` pooled contexts.
`maxScriptNestingLevel` is modelled from the spec: the compile-time
constant `MAX_SCRIPT_NESTING_LEVEL` is declared in ScriptEngine.h, which
is not part of this excerpt, so it is taken as an arbitrary parameter;
`asIScriptEngine::CreateContext` is modelled as always yielding a fresh
(unprepared) context. -/
def construct (maxScriptNestingLevel : Nat) (engineCreated : Bool) :
    Except String ScriptEngineState :=
  if !engineCreated then
    Except.error "Could not create AngelScript engine"
  else
    Except.ok
      { immediateContext := { prepared := false },
        scriptFileContexts :=
          List.replicate maxScriptNestingLevel { prepared := false },
        logMode := ScriptLogMode.immediate,
        logMessages := "" }

/-- `ScriptEngine::~ScriptEngine`: every pooled context is released and
`mScriptFileContexts.clear()` empties the pool. -/
def destruct (s : ScriptEngineState) : ScriptEngineState :=
  { s with scriptFileContexts := [] }

/-- `ScriptEngine::getScriptFileContext`: bounds-checked lookup into the
pool, returning the null sentinel (`none`) when the requested nesting
level is at or beyond the pool size. -/
def getScriptFileContext (s : ScriptEngineState) (nestingLevel : Nat) :
    Option ScriptContext :=
  if h : nestingLevel ≥ s.scriptFileContexts.length then
    none
  else
    some (s.scriptFileContexts.get ⟨nestingLevel, by omega⟩)

/-- The possible return values of `asIScriptContext::Execute` relevant to
the wrapper: the completion states of `asEContextState` and a
representative negative `asERetCodes` error. -/
inductive ExecuteResult
  | finished
  | suspended
  | aborted
  | exceptionThrown
  | notPrepared
deriving DecidableEq, Repr

/-- The numeric value `asIScriptContext::Execute` returns for each
outcome, per `angelscript.h`: asEXECUTION_FINISHED = 0,
asEXECUTION_SUSPENDED = 1, asEXECUTION_ABORTED = 2,
asEXECUTION_EXCEPTION = 3, asCONTEXT_NOT_PREPARED = -4. -/
def ExecuteResult.toInt : ExecuteResult → Int
  | ExecuteResult.finished => 0
  | ExecuteResult.suspended => 1
  | ExecuteResult.aborted => 2
  | ExecuteResult.exceptionThrown => 3
  | ExecuteResult.notPrepared => -4

/-- Return values of the AngelScript calls made by `ScriptEngine::execute`:
whether `GetModule("ExecuteImmediate", asGM_ALWAYS_CREATE)` returned a
non-null module, the return code of `asIScriptModule::CompileFunction`,
the return code of `asIScriptContext::Prepare`, and the result of
`asIScriptContext::Execute`. -/
structure ExecuteOracle where
  moduleOk : Bool
  compileFunctionResult : Int
  prepareResult : Int
  executeResult : ExecuteResult
deriving DecidableEq, Repr

/-- The wrapping of the statement text into a throwaway function body:
`"void f(){\n" + line + ";\n}"`. -/
def wrappedLine (line : String) : String :=
  "void f()\x7b\n" ++ line ++ ";\n\x7d"

/-- `ScriptEngine::execute`: retrieves a dummy module, compiles the
wrapped line as a function, prepares the immediate context and executes
it, returning `Execute() >= 0` as success.  Returns false early (leaving
the engine state untouched) when module retrieval fails, when
`CompileFunction` returns a negative code, or when `Prepare` returns a
negative code; a failed `Prepare` leaves the context preparation state
as it was. -/
def execute (o : ExecuteOracle) (line : String) (s : ScriptEngineState) :
    Bool × ScriptEngineState :=
  let _ := wrappedLine line
  if !o.moduleOk then
    (false, s)
  else if o.compileFunctionResult < 0 then
    (false, s)
  else if o.prepareResult < 0 then
    (false, s)
  else
    (decide (0 ≤ o.executeResult.toInt),
      { s with immediateContext := { prepared := true } })

/-- asGC_FULL_CYCLE, per asEGCFlags in `angelscript.h`. -/
def asGC_FULL_CYCLE : Nat := 1

/-- asGC_ONE_STEP, per asEGCFlags in `angelscript.h`. -/
def asGC_ONE_STEP : Nat := 2

/-- asGC_DESTROY_GARBAGE, per asEGCFlags in `angelscript.h`. -/
def asGC_DESTROY_GARBAGE : Nat := 4

/-- asGC_DETECT_GARBAGE, per asEGCFlags in `angelscript.h`. -/
def asGC_DETECT_GARBAGE : Nat := 8

/-- `asIScriptContext::Unprepare`. -/
def unprepare (c : ScriptContext) : ScriptContext :=
  { c with prepared := false }

/-- `ScriptEngine::garbageCollect`: unprepares the immediate context and
the pooled contexts at indices below the highest used nesting level,
then invokes `asIScriptEngine::GarbageCollect` with either one full
cycle or an incremental detect step followed by a full destroy pass.
The engine-level calls are returned as the list of flag arguments, in
order.  `highestScriptNestingLevel` is modelled from the spec: the
function `getHighestScriptNestingLevel()` lives in ScriptFile, which is
not part of this excerpt, so its value is taken as a parameter. -/
def garbageCollect (s : ScriptEngineState) (highestScriptNestingLevel : Nat)
    (fullCycle : Bool) : ScriptEngineState × List Nat :=
  let s2 : ScriptEngineState :=
    { s with
      immediateContext := unprepare s.immediateContext,
      scriptFileContexts :=
        s.scriptFileContexts.mapIdx fun i c =>
          if i < highestScriptNestingLevel then unprepare c else c }
  if fullCycle then
    (s2, [asGC_FULL_CYCLE])
  else
    (s2, [asGC_ONE_STEP ||| asGC_DETECT_GARBAGE,
          asGC_FULL_CYCLE ||| asGC_DESTROY_GARBAGE])

/-- `ScriptEngine::setLogMode`. -/
def setLogMode (s : ScriptEngineState) (mode : ScriptLogMode) :
    ScriptEngineState :=
  { s with logMode := mode }

/-- `ScriptEngine::clearLogMessages`. -/
def clearLogMessages (s : ScriptEngineState) : ScriptEngineState :=
  { s with logMessages := "" }

/-- The formatted diagnostic line built by `ScriptEngine::logMessage`:
`section + " (" + row + "," + col + ") " + text`. -/
def formatMessage (msg : MessageInfo) : String :=
  msg.sectionName ++ " (" ++ toString msg.row ++ "," ++ toString msg.col
    ++ ") " ++ msg.message

/-- `ScriptEngine::logMessage`: formats the message; in immediate mode
dispatches it to the error, warning or info sink by severity (returned
as the optional second component); in retained mode appends
error/warning lines, with a trailing newline, to `mLogMessages` and
drops info messages. -/
def logMessage (s : ScriptEngineState) (msg : MessageInfo) :
    ScriptEngineState × Option (LogSink × String) :=
  let message := formatMessage msg
  match s.logMode with
  | ScriptLogMode.immediate =>
    match msg.msgType with
    | MsgType.error => (s, some (LogSink.errorSink, message))
    | MsgType.warning => (s, some (LogSink.warningSink, message))
    | MsgType.info => (s, some (LogSink.infoSink, message))
  | ScriptLogMode.retained =>
    if msg.msgType = MsgType.error ∨ msg.msgType = MsgType.warning then
      ({ s with logMessages := s.logMessages ++ message ++ "\n" }, none)
    else
      (s, none)

/-- A sample post-construction engine state with a pool of three
contexts, used to instantiate hypotheses of the claim theorems. -/
def sampleState : ScriptEngineState :=
  { immediateContext := { prepared := false },
    scriptFileContexts := List.replicate 3 { prepared := false },
    logMode := ScriptLogMode.immediate,
    logMessages := "" }

/-- C7: construction of the engine owner either raises a fatal exception
(when creation of the underlying runtime fails) or succeeds in a fully
usable state: a usable (unprepared) immediate context and all
`maxScriptNestingLevel` per-level contexts created; it never completes
in a partially-usable state. -/
theorem construct_all_or_nothing (maxScriptNestingLevel : Nat)
    (engineCreated : Bool) :
    construct maxScriptNestingLevel engineCreated =
        Except.error "Could not create AngelScript engine"
      ∨ (construct maxScriptNestingLevel engineCreated = Except.ok
          { immediateContext := { prepared := false },
            scriptFileContexts :=
              List.replicate maxScriptNestingLevel { prepared := false },
            logMode := ScriptLogMode.immediate,
            logMessages := "" }
        ∧ (List.replicate maxScriptNestingLevel
            ({ prepared := false } : ScriptContext)).length
            = maxScriptNestingLevel) := by
  cases engineCreated with
  | false => exact Or.inl rfl
  | true => exact Or.inr ⟨rfl, List.length_replicate _ _⟩

/-- C2: after construction with maximum nesting level `m`,
`getScriptFileContext level` is the null sentinel exactly when
`level ≥ m`, and yields a valid (non-null) context for every
`level < m`. -/
theorem getScriptFileContext_bounds (m : Nat) (s : ScriptEngineState)
    (hs : construct m true = Except.ok s) (level : Nat) :
    (m ≤ level → getScriptFileContext s level = none)
    ∧ (level < m → ∃ c, getScriptFileContext s level = some c) := by
  have hpool : s.scriptFileContexts =
      List.replicate m { prepared := false } := by
    simp only [construct, Bool.not_true, Bool.false_eq_true, if_false,
      Except.ok.injEq] at hs
    rw [← hs]
  constructor
  · intro hle
    simp [getScriptFileContext, hpool, List.length_replicate, hle]
  · intro hlt
    have hl : ¬ level ≥ s.scriptFileContexts.length := by
      rw [hpool, List.length_replicate]; omega
    refine ⟨s.scriptFileContexts.get ⟨level, by omega⟩, ?_⟩
    simp only [getScriptFileContext]
    rw [dif_neg hl]

/-- C2 witness: at maximum nesting level 3, level 5 yields the null
sentinel and level 1 a valid context. -/
theorem getScriptFileContext_bounds_witness :
    (getScriptFileContext sampleState 5 = none)
    ∧ ∃ c, getScriptFileContext sampleState 1 = some c :=
  ⟨(getScriptFileContext_bounds 3 sampleState (by rfl) 5).1 (by decide),
   (getScriptFileContext_bounds 3 sampleState (by rfl) 1).2 (by decide)⟩

/-- C9: when `execute` fails before preparation (module retrieval fails
or function compilation returns a negative code) it returns false and
leaves the whole engine state, in particular the immediate context's
preparation state, unchanged. -/
theorem execute_early_failure_preserves_state (o : ExecuteOracle)
    (line : String) (s : ScriptEngineState)
    (h : o.moduleOk = false ∨ o.compileFunctionResult < 0) :
    (execute o line s).fst = false ∧ (execute o line s).snd = s := by
  rcases h with h | h
  · simp [execute, h]
  · rcases hm : o.moduleOk with _ | _
    · simp [execute, hm]
    · simp [execute, hm, h]

/-- C9 witness: a compile failure (negative CompileFunction code) on a
retrieved module returns false and leaves the state unchanged. -/
theorem execute_early_failure_preserves_state_witness :
    (execute
        { moduleOk := true, compileFunctionResult := -1, prepareResult := 0,
          executeResult := ExecuteResult.finished }
        "flawed" sampleState).fst = false
    ∧ (execute
        { moduleOk := true, compileFunctionResult := -1, prepareResult := 0,
          executeResult := ExecuteResult.finished }
        "flawed" sampleState).snd = sampleState :=
  execute_early_failure_preserves_state _ "flawed" sampleState
    (Or.inr (by decide))

/-- C10: when the log mode is immediate, `logMessage` leaves the engine
state, in particular the retained message buffer, unchanged for every
message regardless of severity. -/
theorem logMessage_immediate_preserves_buffer (s : ScriptEngineState)
    (msg : MessageInfo) (h : s.logMode = ScriptLogMode.immediate) :
    (logMessage s msg).fst = s
    ∧ (logMessage s msg).fst.logMessages = s.logMessages := by
  have hfst : (logMessage s msg).fst = s := by
    cases hm : msg.msgType <;> simp [logMessage, h, hm]
  exact ⟨hfst, by rw [hfst]⟩

/-- C10 witness: an immediate-mode error message leaves the retained
buffer of a concrete state unchanged. -/
theorem logMessage_immediate_preserves_buffer_witness :
    (logMessage sampleState
        { sectionName := "s", row := 1, col := 2,
          msgType := MsgType.error, message := "boom" }).fst = sampleState :=
  (logMessage_immediate_preserves_buffer sampleState
    { sectionName := "s", row := 1, col := 2,
      msgType := MsgType.error, message := "boom" } rfl).1

/-- A sample warning diagnostic, used to instantiate hypotheses of the
claim theorems. -/
def sampleWarning : MessageInfo :=
  { sectionName := "Script", row := 4, col := 7,
    msgType := MsgType.warning, message := "unused variable" }

/-- A sample error diagnostic, used to instantiate hypotheses of the
claim theorems. -/
def sampleError : MessageInfo :=
  { sectionName := "Script", row := 2, col := 5,
    msgType := MsgType.error, message := "expected expression" }

/-- C5: logMessage formats every diagnostic as
"{section} ({row},{col}) {text}"; in immediate mode it dispatches the
formatted line by severity to the error, warning or info sink without
touching the state; in retained mode it appends the formatted line plus
a newline to the retained buffer exactly for error and warning
severities and appends nothing for info messages. -/
theorem logMessage_format_and_modes (s : ScriptEngineState)
    (msg : MessageInfo) :
    (formatMessage msg =
      msg.sectionName ++ " (" ++ toString msg.row ++ "," ++ toString msg.col
        ++ ") " ++ msg.message)
    ∧ (s.logMode = ScriptLogMode.immediate →
        (msg.msgType = MsgType.error →
          logMessage s msg = (s, some (LogSink.errorSink, formatMessage msg)))
        ∧ (msg.msgType = MsgType.warning →
          logMessage s msg
            = (s, some (LogSink.warningSink, formatMessage msg)))
        ∧ (msg.msgType = MsgType.info →
          logMessage s msg = (s, some (LogSink.infoSink, formatMessage msg))))
    ∧ (s.logMode = ScriptLogMode.retained →
        ((msg.msgType = MsgType.error ∨ msg.msgType = MsgType.warning) →
          logMessage s msg =
            ({ s with logMessages :=
                s.logMessages ++ formatMessage msg ++ "\n" }, none))
        ∧ (msg.msgType = MsgType.info →
          logMessage s msg = (s, none))) := by
  refine ⟨rfl, fun hmode => ⟨?_, ?_, ?_⟩, fun hmode => ⟨?_, ?_⟩⟩ <;>
    intro htype
  · simp [logMessage, hmode, htype]
  · simp [logMessage, hmode, htype]
  · simp [logMessage, hmode, htype]
  · rcases htype with htype | htype <;> simp [logMessage, hmode, htype]
  · simp [logMessage, hmode, htype]

/-- C5 witness: a warning received in retained mode appends exactly its
formatted line and newline to the (empty) retained buffer. -/
theorem logMessage_format_and_modes_witness :
    (logMessage (setLogMode sampleState ScriptLogMode.retained)
        sampleWarning).fst.logMessages
      = "Script (4,7) unused variable\n" := by
  have h := ((logMessage_format_and_modes
      (setLogMode sampleState ScriptLogMode.retained) sampleWarning).2.2
      rfl).1 (Or.inr rfl)
  rw [h]
  rfl

/-- C6: in retained mode, clearing the log and then receiving one
error-severity message leaves the retained buffer holding exactly that
one formatted line with its trailing newline; and in every state
whatsoever an info-severity message leaves the retained buffer
unchanged. -/
theorem retained_clear_then_single_error (s : ScriptEngineState)
    (msg : MessageInfo) (hmode : s.logMode = ScriptLogMode.retained)
    (htype : msg.msgType = MsgType.error) :
    (logMessage (clearLogMessages s) msg).fst.logMessages
      = formatMessage msg ++ "\n"
    ∧ ∀ s2 msg2, msg2.msgType = MsgType.info →
        (logMessage s2 msg2).fst.logMessages = s2.logMessages := by
  constructor
  · simp [logMessage, clearLogMessages, hmode, htype]
  · intro s2 msg2 htype2
    cases hmode2 : s2.logMode <;> simp [logMessage, hmode2, htype2]

/-- C6 witness: in a concrete retained-mode state, clearing then one
error yields a buffer containing exactly the one formatted line. -/
theorem retained_clear_then_single_error_witness :
    (logMessage
        (clearLogMessages (setLogMode sampleState ScriptLogMode.retained))
        sampleError).fst.logMessages
      = formatMessage sampleError ++ "\n" :=
  (retained_clear_then_single_error
    (setLogMode sampleState ScriptLogMode.retained) sampleError rfl rfl).1

/-- The success flag computed by execute equals the conjunction of the
AngelScript calls succeeding, with success of the final Execute call
being a non-negative return value. -/
theorem execute_fst_characterization (o : ExecuteOracle) (line : String)
    (s : ScriptEngineState) :
    (execute o line s).fst =
      (o.moduleOk && !decide (o.compileFunctionResult < 0)
        && !decide (o.prepareResult < 0)
        && decide (0 ≤ o.executeResult.toInt)) := by
  rcases o with ⟨mo, cf, pr, er⟩
  cases mo <;> by_cases h1 : cf < 0 <;> by_cases h2 : pr < 0 <;>
    simp [execute, h1, h2]

/-- C1 counterexample: when module retrieval, compilation and
preparation all succeed and the compiled code throws at runtime —
Execute returns asEXECUTION_EXCEPTION = 3, a non-negative value —
execute returns true, not false as the claim states. -/
theorem execute_runtime_exception_counterexample :
    (execute
        { moduleOk := true, compileFunctionResult := 0, prepareResult := 0,
          executeResult := ExecuteResult.exceptionThrown }
        "DoThrow()" sampleState).fst = true := by
  decide

/-- C1 amended: for every input statement string, execute returns false
when module retrieval fails, when the line fails to compile
(syntactically invalid input included) and when preparing the immediate
context fails, and it reports failure only through the boolean result
(it is a total function into Bool); but a runtime script exception is
reported by Execute as the non-negative state asEXECUTION_EXCEPTION, so
execute then returns true: once compilation and preparation succeed the
result is exactly "Execute() >= 0". -/
theorem execute_result_semantics (o : ExecuteOracle) (line : String)
    (s : ScriptEngineState) :
    (o.moduleOk = false → (execute o line s).fst = false)
    ∧ (o.compileFunctionResult < 0 → (execute o line s).fst = false)
    ∧ (o.prepareResult < 0 → (execute o line s).fst = false)
    ∧ (o.moduleOk = true → 0 ≤ o.compileFunctionResult →
        0 ≤ o.prepareResult →
        ((execute o line s).fst = true ↔ 0 ≤ o.executeResult.toInt))
    ∧ (o.moduleOk = true → 0 ≤ o.compileFunctionResult →
        0 ≤ o.prepareResult →
        o.executeResult = ExecuteResult.exceptionThrown →
        (execute o line s).fst = true) := by
  refine ⟨?_, ?_, ?_, ?_, ?_⟩
  · intro h
    rw [execute_fst_characterization, h]
    rfl
  · intro h
    rw [execute_fst_characterization]
    simp [h]
  · intro h
    rw [execute_fst_characterization]
    simp [h]
  · intro h1 h2 h3
    rw [execute_fst_characterization, h1]
    simp [not_lt.2 h2, not_lt.2 h3]
  · intro h1 h2 h3 h4
    rw [execute_fst_characterization, h1, h4]
    simp [not_lt.2 h2, not_lt.2 h3, ExecuteResult.toInt]

/-- C1 amended witness: a preparation failure (negative Prepare code)
after successful compilation makes execute return false. -/
theorem execute_result_semantics_witness :
    (execute
        { moduleOk := true, compileFunctionResult := 0, prepareResult := -7,
          executeResult := ExecuteResult.finished }
        "x = 1" sampleState).fst = false :=
  (execute_result_semantics
      { moduleOk := true, compileFunctionResult := 0, prepareResult := -7,
        executeResult := ExecuteResult.finished }
      "x = 1" sampleState).2.2.1 (by decide)

/-- Indexing through mapIdx applies the function at the index. -/
theorem get?_mapIdx {α β : Type} (l : List α) (f : Nat → α → β) (i : Nat) :
    (l.mapIdx f).get? i = (l.get? i).map (f i) := by
  by_cases h : i < l.length
  · have h2 : i < (l.mapIdx f).length := by
      rw [List.length_mapIdx]; exact h
    rw [List.get?_eq_get h, List.get?_eq_get h2, List.get_mapIdx]
    rfl
  · have h1 : l.length ≤ i := by omega
    have h2 : (l.mapIdx f).length ≤ i := by rw [List.length_mapIdx]; omega
    rw [List.get?_eq_none.2 h2, List.get?_eq_none.2 h1]
    rfl

/-- The state produced by garbageCollect, independently of the
fullCycle flag: the immediate context is unprepared and pooled contexts
below the highest used nesting level are unprepared. -/
theorem garbageCollect_fst (s : ScriptEngineState) (highest : Nat)
    (fullCycle : Bool) :
    (garbageCollect s highest fullCycle).fst =
      { s with
        immediateContext := unprepare s.immediateContext,
        scriptFileContexts :=
          s.scriptFileContexts.mapIdx fun i c =>
            if i < highest then unprepare c else c } := by
  cases fullCycle <;> rfl

/-- C3: garbageCollect first unprepares the immediate context and every
pooled context at an index below the highest nesting level reached
(leaving the rest untouched); then with fullCycle = true it invokes the
collector exactly once with asGC_FULL_CYCLE, and with fullCycle = false
exactly twice: one incremental detect step
(asGC_ONE_STEP | asGC_DETECT_GARBAGE) followed by a full destroy pass
(asGC_FULL_CYCLE | asGC_DESTROY_GARBAGE), in that order. -/
theorem garbageCollect_unprepares_and_collects (s : ScriptEngineState)
    (highest : Nat) (fullCycle : Bool) :
    ((garbageCollect s highest fullCycle).fst.immediateContext.prepared
      = false)
    ∧ (∀ i, i < highest →
        (garbageCollect s highest fullCycle).fst.scriptFileContexts.get? i
          = (s.scriptFileContexts.get? i).map unprepare)
    ∧ (∀ i, highest ≤ i →
        (garbageCollect s highest fullCycle).fst.scriptFileContexts.get? i
          = s.scriptFileContexts.get? i)
    ∧ ((garbageCollect s highest fullCycle).snd =
        if fullCycle then [asGC_FULL_CYCLE]
        else [asGC_ONE_STEP ||| asGC_DETECT_GARBAGE,
              asGC_FULL_CYCLE ||| asGC_DESTROY_GARBAGE]) := by
  refine ⟨?_, ?_, ?_, ?_⟩
  · rw [garbageCollect_fst]
    rfl
  · intro i hi
    rw [garbageCollect_fst]
    show (List.mapIdx _ _).get? i = _
    rw [get?_mapIdx]
    cases s.scriptFileContexts.get? i <;> simp [hi]
  · intro i hi
    rw [garbageCollect_fst]
    show (List.mapIdx _ _).get? i = _
    rw [get?_mapIdx]
    cases s.scriptFileContexts.get? i <;> simp [Nat.not_lt.2 hi]
  · cases fullCycle <;> rfl

/-- C3 witness: with three pooled contexts and highest used level 2, a
non-full cycle unprepares index 1, leaves index 2 untouched, and issues
the detect step followed by the destroy pass. -/
theorem garbageCollect_unprepares_and_collects_witness :
    ((garbageCollect sampleState 2 false).fst.scriptFileContexts.get? 1
        = (sampleState.scriptFileContexts.get? 1).map unprepare)
    ∧ ((garbageCollect sampleState 2 false).fst.scriptFileContexts.get? 2
        = sampleState.scriptFileContexts.get? 2)
    ∧ ((garbageCollect sampleState 2 false).snd
        = [asGC_ONE_STEP ||| asGC_DETECT_GARBAGE,
           asGC_FULL_CYCLE ||| asGC_DESTROY_GARBAGE]) := by
  refine ⟨(garbageCollect_unprepares_and_collects sampleState 2 false).2.1 1
      (by decide),
    (garbageCollect_unprepares_and_collects sampleState 2 false).2.2.1 2
      (by decide), ?_⟩
  have h := (garbageCollect_unprepares_and_collects sampleState 2 false).2.2.2
  simpa using h

/-- C4: calling garbageCollect, with or without a full cycle, in a state
where no context is prepared always returns (the model is total, hence
no failure) and leaves the immediate context and every pooled context
unprepared. -/
theorem garbageCollect_safe_zero_prepared (s : ScriptEngineState)
    (highest : Nat) (fullCycle : Bool)
    (himm : s.immediateContext.prepared = false)
    (hpool : ∀ c ∈ s.scriptFileContexts, c.prepared = false) :
    ((garbageCollect s highest fullCycle).fst.immediateContext.prepared
      = false)
    ∧ ∀ c ∈ (garbageCollect s highest fullCycle).fst.scriptFileContexts,
        c.prepared = false := by
  constructor
  · rw [garbageCollect_fst]
    rfl
  · intro c hc
    rw [garbageCollect_fst] at hc
    rw [List.mem_iff_get] at hc
    obtain ⟨⟨i, hi⟩, hgi⟩ := hc
    have hlen : i < s.scriptFileContexts.length := by
      rw [List.length_mapIdx] at hi; exact hi
    rw [List.get_mapIdx _ _ _ hlen] at hgi
    by_cases hih : i < highest
    · rw [if_pos hih] at hgi
      rw [← hgi]
      rfl
    · rw [if_neg hih] at hgi
      rw [← hgi]
      exact hpool _ (List.get_mem _ _ _)

/-- C4 witness: a full-cycle collection on a concrete state with zero
prepared contexts leaves the immediate context unprepared. -/
theorem garbageCollect_safe_zero_prepared_witness :
    (garbageCollect sampleState 2 true).fst.immediateContext.prepared
      = false :=
  (garbageCollect_safe_zero_prepared sampleState 2 true rfl (by decide)).1

/-- C8: after construction the pool holds exactly the configured maximum
number of contexts, and no operation changes the pool: execute,
logMessage, setLogMode and clearLogMessages leave it identical,
garbageCollect preserves its length, and getScriptFileContext is
read-only by its type; only destruction empties the pool. -/
theorem scriptFileContexts_pool_fixed (m : Nat) (s0 s : ScriptEngineState)
    (hs : construct m true = Except.ok s0) (o : ExecuteOracle)
    (line : String) (highest : Nat) (b : Bool) (msg : MessageInfo)
    (mode : ScriptLogMode) :
    s0.scriptFileContexts.length = m
    ∧ (execute o line s).snd.scriptFileContexts = s.scriptFileContexts
    ∧ (garbageCollect s highest b).fst.scriptFileContexts.length
        = s.scriptFileContexts.length
    ∧ (logMessage s msg).fst.scriptFileContexts = s.scriptFileContexts
    ∧ (setLogMode s mode).scriptFileContexts = s.scriptFileContexts
    ∧ (clearLogMessages s).scriptFileContexts = s.scriptFileContexts
    ∧ (destruct s).scriptFileContexts = [] := by
  refine ⟨?_, ?_, ?_, ?_, rfl, rfl, rfl⟩
  · simp only [construct, Bool.not_true, Bool.false_eq_true, if_false,
      Except.ok.injEq] at hs
    rw [← hs]
    exact List.length_replicate _ _
  · rcases o with ⟨mo, cf, pr, er⟩
    cases mo <;> by_cases h1 : cf < 0 <;> by_cases h2 : pr < 0 <;>
      simp [execute, h1, h2]
  · rw [garbageCollect_fst]
    exact List.length_mapIdx
  · cases hmode : s.logMode <;> cases htype : msg.msgType <;>
      simp [logMessage, hmode, htype]

/-- C8 witness: the concrete constructed state has exactly three pooled
contexts. -/
theorem scriptFileContexts_pool_fixed_witness :
    sampleState.scriptFileContexts.length = 3 :=
  (scriptFileContexts_pool_fixed 3 sampleState sampleState (by rfl)
    { moduleOk := true, compileFunctionResult := 0, prepareResult := 0,
      executeResult := ExecuteResult.finished }
    "x = 1" 2 false sampleError ScriptLogMode.retained).1

end Urho3D
